import Mathlib

set_option maxRecDepth 40000

/-!
Verification model of the ELF object-file parser exercised by
`llvm/unittests/Object/ELFObjectFileTest.cpp`.  The parser implementation
itself is not part of the sources at hand, so each component is modelled
from the natural-language specification, with every literal value (format
names, architecture identifiers, diagnostic texts, warning texts) pinned
to what the unit tests assert.  All concrete scenarios in the tests use
the 64-bit little-endian instantiation, and the models below follow the
ELF64 record layouts.
-/

namespace ELFModel

/-- A raw buffer is a list of bytes; reading outside the buffer is never
performed by the model (`List.getD` with default 0 is only reached after a
bounds check in every accessor).  Each byte is reduced mod 256. -/
def byteAt (buf : List Nat) (i : Nat) : Nat :=
  buf.getD i 0 % 256

/-- Little-endian read of `n` bytes starting at `off`. -/
def readLE (buf : List Nat) (off : Nat) : Nat → Nat
  | 0 => 0
  | n + 1 => readLE buf off n + byteAt buf (off + n) * 256 ^ n

/-- Big-endian read of `n` bytes starting at `off`. -/
def readBE (buf : List Nat) (off : Nat) : Nat → Nat
  | 0 => 0
  | n + 1 => readBE buf off n * 256 + byteAt buf (off + n)

/-- Read `n` bytes at `off` in the byte order selected by `isLE`. -/
def readN (isLE : Bool) (buf : List Nat) (off n : Nat) : Nat :=
  if isLE then readLE buf off n else readBE buf off n

/-- Lowercase hexadecimal rendering of a natural number, as used by the
diagnostic messages. -/
def hexStr (n : Nat) : String :=
  String.mk (Nat.toDigits 16 n)

/-- Modelled from the spec: a Diagnostic is a tagged failure result
carrying a human-readable message and the implicated file offset.  Every
accessor that can fail returns either a typed value or a Diagnostic. -/
structure Diagnostic where
  msg : String
  offset : Nat
deriving Repr, DecidableEq

instance {ε α : Type} [DecidableEq ε] [DecidableEq α] : DecidableEq (Except ε α) := fun x y =>
  match x, y with
  | .error a, .error b =>
      if h : a = b then .isTrue (by rw [h]) else .isFalse (by intro hc; cases hc; exact h rfl)
  | .error _, .ok _ => .isFalse (by intro hc; cases hc)
  | .ok _, .error _ => .isFalse (by intro hc; cases hc)
  | .ok a, .ok b =>
      if h : a = b then .isTrue (by rw [h]) else .isFalse (by intro hc; cases hc; exact h rfl)

/-! ## Machine-type codes (ELF `e_machine` values) -/

def EM_NONE : Nat := 0

def EM_SPARC : Nat := 2

def EM_386 : Nat := 3

def EM_IAMCU : Nat := 6

def EM_MIPS : Nat := 8

def EM_SPARC32PLUS : Nat := 18

def EM_PPC : Nat := 20

def EM_PPC64 : Nat := 21

def EM_S390 : Nat := 22

def EM_ARM : Nat := 40

def EM_SPARCV9 : Nat := 43

def EM_X86_64 : Nat := 62

def EM_AVR : Nat := 83

def EM_MSP430 : Nat := 105

def EM_HEXAGON : Nat := 164

def EM_AARCH64 : Nat := 183

def EM_AMDGPU : Nat := 224

def EM_RISCV : Nat := 243

def EM_LANAI : Nat := 244

def EM_BPF : Nat := 247

def EM_VE : Nat := 251

def EM_CSKY : Nat := 252

/-- The closed enumeration of architecture identifiers that the
Architecture Resolver can produce. -/
inductive Arch where
  | unknown
  | x86
  | x86_64
  | mipsel
  | mips
  | mips64el
  | mips64
  | ve
  | aarch64
  | aarch64_be
  | ppc64le
  | ppc64
  | ppc
  | riscv32
  | riscv64
  | arm
  | systemz
  | sparcv9
  | sparcel
  | sparc
  | bpfel
  | bpfeb
  | avr
  | hexagon
  | lanai
  | msp430
  | csky
deriving Repr, DecidableEq

/-- Modelled from the spec: the format-name half of the Architecture
Resolver (the `getFileFormatName` query of the missing implementation).
The word class selects the `elf32-`/`elf64-` prefix, and each machine code
valid at that class contributes its tag; every literal below is the exact
string asserted by the `MachineTestFor*` unit tests, and every machine
code not enumerated at a class degrades to the word-size-correct
`unknown` format name. -/
def getFileFormatName (is64 : Bool) (isLE : Bool) (machine : Nat) : String :=
  if is64 then
    match machine with
    | 3 => "elf64-i386"
    | 8 => "elf64-mips"
    | 21 => if isLE then "elf64-powerpcle" else "elf64-powerpc"
    | 22 => "elf64-s390"
    | 43 => "elf64-sparc"
    | 62 => "elf64-x86-64"
    | 183 => if isLE then "elf64-littleaarch64" else "elf64-bigaarch64"
    | 224 => "elf64-amdgpu"
    | 243 => "elf64-littleriscv"
    | 247 => "elf64-bpf"
    | 251 => "elf64-ve"
    | _ => "elf64-unknown"
  else
    match machine with
    | 2 => "elf32-sparc"
    | 3 => "elf32-i386"
    | 6 => "elf32-iamcu"
    | 8 => "elf32-mips"
    | 18 => "elf32-sparc"
    | 20 => "elf32-powerpc"
    | 40 => if isLE then "elf32-littlearm" else "elf32-bigarm"
    | 62 => "elf32-x86-64"
    | 83 => "elf32-avr"
    | 105 => "elf32-msp430"
    | 164 => "elf32-hexagon"
    | 224 => "elf32-amdgpu"
    | 243 => "elf32-littleriscv"
    | 244 => "elf32-lanai"
    | 252 => "elf32-csky"
    | _ => "elf32-unknown"

/-- Modelled from the spec: the architecture-identifier half of the
Architecture Resolver (the `getArch` query of the missing implementation).
It dispatches on the machine code alone except where the tests show a
byte-order split (MIPS, AARCH64, PPC64, SPARC family, BPF) or a word-class
split (MIPS, RISCV); unknown or reserved machine codes map to the generic
unknown identifier. -/
def getArch (isLE : Bool) (is64 : Bool) (machine : Nat) : Arch :=
  match machine with
  | 2 => if isLE then .sparcel else .sparc
  | 3 => .x86
  | 6 => .x86
  | 8 =>
    if is64 then (if isLE then .mips64el else .mips64)
    else (if isLE then .mipsel else .mips)
  | 18 => if isLE then .sparcel else .sparc
  | 20 => .ppc
  | 21 => if isLE then .ppc64le else .ppc64
  | 22 => .systemz
  | 40 => .arm
  | 43 => .sparcv9
  | 62 => .x86_64
  | 83 => .avr
  | 105 => .msp430
  | 164 => .hexagon
  | 183 => if isLE then .aarch64 else .aarch64_be
  | 224 => .unknown
  | 243 => if is64 then .riscv64 else .riscv32
  | 244 => .lanai
  | 247 => if isLE then .bpfel else .bpfeb
  | 251 => .ve
  | 252 => .csky
  | _ => .unknown

/-- The Architecture Resolver of the spec: a pure, total mapping from
(machine code, word class, byte order) to the (format name, architecture
identifier) pair. -/
def classify (machine : Nat) (is64 : Bool) (isLE : Bool) : String × Arch :=
  (getFileFormatName is64 isLE machine, getArch isLE is64 machine)

/-! ## Relative-Relocation Table -/

def R_386_RELATIVE : Nat := 8

def R_X86_64_RELATIVE : Nat := 8

def R_ARM_RELATIVE : Nat := 23

def R_AARCH64_RELATIVE : Nat := 1027

/-- The C-SKY ABI RELATIVE relocation code. -/
def R_CKCORE_RELATIVE : Nat := 9

/-- Modelled from the spec: the static architecture-to-relative-relocation
lookup (`getELFRelativeRelocationType` of the missing implementation).
Architectures without a relative relocation concept fall through to 0. -/
def getELFRelativeRelocationType (machine : Nat) : Nat :=
  match machine with
  | 3 => R_386_RELATIVE
  | 40 => R_ARM_RELATIVE
  | 62 => R_X86_64_RELATIVE
  | 183 => R_AARCH64_RELATIVE
  | 252 => R_CKCORE_RELATIVE
  | _ => 0

/-! ## Section and program header records, Table Accessor -/

def SHT_SYMTAB : Nat := 2

def SHT_SYMTAB_SHNDX : Nat := 18

def PT_LOAD : Nat := 1

/-- Section Header Entry: the fields of an ELF section header that the
modelled accessors consume (type, address, file offset, declared size). -/
structure Shdr where
  sh_type : Nat := 0
  sh_addr : Nat := 0
  sh_offset : Nat := 0
  sh_size : Nat := 0
deriving Repr, DecidableEq, Inhabited

/-- Program Header Entry: the fields of an ELF program header that the
Address Mapper consumes (segment type, file offset, virtual address,
in-memory size). -/
structure Phdr where
  p_type : Nat := 0
  p_offset : Nat := 0
  p_vaddr : Nat := 0
  p_memsz : Nat := 0
deriving Repr, DecidableEq, Inhabited

/-- Size in bytes of an ELF64 symbol-table entry. -/
def symEntrySize : Nat := 24

/-- The diagnostic produced by the entry accessor when the computed entry
span is not contained in the buffer.  The message text is the exact
literal asserted by the unit tests (`ErrMsg` in the symbol test), and the
implicated offset is the computed entry offset. -/
def entryDiag (secIdx pos : Nat) : Diagnostic :=
  { msg := "unable to access section [index " ++ toString secIdx ++ "] data at 0x"
           ++ hexStr pos ++ ": offset goes past the end of file"
    offset := pos }

/-- Modelled from the spec: the Table Accessor (`ELFFile::getEntry` of the
missing implementation).  It computes
`pos = sh_offset + index * entSize` and fails with `entryDiag` before any
byte is read when `pos + entSize` exceeds the buffer length; since the
model computes in unbounded naturals, an address computation that would
overflow the 64-bit width instead produces a value necessarily past the
end of the buffer and fails the same check.  On success it returns the
validated entry position. -/
def getEntry (bufLen secIdx : Nat) (sec : Shdr) (entSize idx : Nat) : Except Diagnostic Nat :=
  if bufLen < sec.sh_offset + idx * entSize + entSize then
    .error (entryDiag secIdx (sec.sh_offset + idx * entSize))
  else .ok (sec.sh_offset + idx * entSize)

/-! ## Symbol Accessor -/

/-- Symbol Table Entry: the ELF64 `Elf_Sym` record fields. -/
structure Sym where
  st_name : Nat := 0
  st_info : Nat := 0
  st_other : Nat := 0
  st_shndx : Nat := 0
  st_value : Nat := 0
  st_size : Nat := 0
deriving Repr, DecidableEq, Inhabited

/-- The reserved null/undefined symbol found at entry index 0. -/
def nullSym : Sym := {}

/-- Decode the ELF64 little-endian symbol record found at `pos`. -/
def parseSym (buf : List Nat) (pos : Nat) : Sym :=
  { st_name := readLE buf pos 4
    st_info := byteAt buf (pos + 4)
    st_other := byteAt buf (pos + 5)
    st_shndx := readLE buf (pos + 6) 2
    st_value := readLE buf (pos + 8) 8
    st_size := readLE buf (pos + 16) 8 }

def SHN_UNDEF : Nat := 0

def SHN_ABS : Nat := 0xfff1

/-- Modelled from the spec: the raw-entry accessor of the Symbol Accessor
(`getSymbol` of the missing implementation).  It funnels through the
Table Accessor bounds check and decodes the record on success. -/
def getSymbol (buf : List Nat) (secIdx : Nat) (sec : Shdr) (idx : Nat) : Except Diagnostic Sym :=
  (getEntry buf.length secIdx sec symEntrySize idx).map (parseSym buf)

/-- Read the zero-terminated byte string at `pos`, with fuel bounding the
scan. -/
def readCStr (buf : List Nat) : Nat → Nat → List Char
  | _, 0 => []
  | pos, fuel + 1 =>
    let b := byteAt buf pos
    if b = 0 then [] else Char.ofNat b :: readCStr buf (pos + 1) fuel

/-- Modelled from the spec: `getSymbolName` first obtains the raw entry —
surfacing the identical Diagnostic on failure — and then reads the
zero-terminated name from the string-table section at the entry-declared
name offset, after checking that offset against the buffer. -/
def getSymbolName (buf : List Nat) (secIdx : Nat) (sec strTab : Shdr) (idx : Nat) :
    Except Diagnostic String :=
  (getSymbol buf secIdx sec idx).bind fun s =>
    let npos := strTab.sh_offset + s.st_name
    if buf.length < npos then
      .error { msg := "invalid string table offset 0x" ++ hexStr npos, offset := npos }
    else .ok (String.mk (readCStr buf npos buf.length))

/-- Modelled from the spec: `getSymbolSection` first obtains the raw entry
— surfacing the identical Diagnostic on failure — and resolves the
entry-declared section index, with none for the undefined and absolute
reserved indices. -/
def getSymbolSection (buf : List Nat) (secIdx : Nat) (sec : Shdr) (idx : Nat) :
    Except Diagnostic (Option Nat) :=
  (getSymbol buf secIdx sec idx).map fun s =>
    if s.st_shndx = SHN_UNDEF || s.st_shndx = SHN_ABS then none else some s.st_shndx

/-- Modelled from the spec: `getSymbolFlags` first obtains the raw entry —
surfacing the identical Diagnostic on failure — and derives flag bits from
the binding half of `st_info` and the reserved section indices. -/
def getSymbolFlags (buf : List Nat) (secIdx : Nat) (sec : Shdr) (idx : Nat) :
    Except Diagnostic Nat :=
  (getSymbol buf secIdx sec idx).map fun s =>
    (if s.st_shndx = SHN_UNDEF then 1 else 0) +
    (if s.st_shndx = SHN_ABS then 2 else 0) +
    (if s.st_info / 16 = 1 then 4 else 0) +
    (if s.st_info / 16 = 2 then 8 else 0)

/-- The symbol kinds derived from the type half of `st_info`. -/
inductive SymKind where
  | notype
  | object
  | func
  | section
  | file
  | other
deriving Repr, DecidableEq

/-- Modelled from the spec: `getSymbolType` first obtains the raw entry —
surfacing the identical Diagnostic on failure — and classifies the type
half of `st_info`. -/
def getSymbolType (buf : List Nat) (secIdx : Nat) (sec : Shdr) (idx : Nat) :
    Except Diagnostic SymKind :=
  (getSymbol buf secIdx sec idx).map fun s =>
    match s.st_info % 16 with
    | 0 => .notype
    | 1 => .object
    | 2 => .func
    | 3 => .section
    | 4 => .file
    | _ => .other

/-- Modelled from the spec: `getSymbolAddress` first obtains the raw entry
— surfacing the identical Diagnostic on failure — and returns the
entry-declared value. -/
def getSymbolAddress (buf : List Nat) (secIdx : Nat) (sec : Shdr) (idx : Nat) :
    Except Diagnostic Nat :=
  (getSymbol buf secIdx sec idx).map fun s => s.st_value

/-! ## Address Mapper -/

/-- The loadable program headers, in the order supplied. -/
def loadSegments (phdrs : List Phdr) : List Phdr :=
  phdrs.filter fun p => p.p_type == PT_LOAD

/-- Whether the segments are sorted ascending by virtual address. -/
def sortedByVaddr : List Phdr → Bool
  | [] => true
  | [_] => true
  | a :: b :: rest => a.p_vaddr ≤ b.p_vaddr && sortedByVaddr (b :: rest)

/-- The first segment whose [p_vaddr, p_vaddr + p_memsz) range contains
the queried address, scanning all supplied segments. -/
def findSegment (vaddr : Nat) : List Phdr → Option Phdr
  | [] => none
  | p :: rest =>
    if p.p_vaddr ≤ vaddr && vaddr < p.p_vaddr + p.p_memsz then some p
    else findSegment vaddr rest

/-- The mapping half of the Address Mapper: translate the address through
the containing loadable segment and validate the resulting file offset
against the buffer before handing it back. -/
def mapResult (load : List Phdr) (bufLen vaddr : Nat) : Except Diagnostic Nat :=
  match findSegment vaddr load with
  | none =>
    .error { msg := "virtual address is not in any segment: 0x" ++ hexStr vaddr
             offset := vaddr }
  | some p =>
    let off := p.p_offset + (vaddr - p.p_vaddr)
    if bufLen < off + 1 then
      .error { msg := "mapped file offset goes past the end of the file: 0x" ++ hexStr off
               offset := off }
    else .ok off

/-- The warning text emitted when the loadable segments are not sorted,
the exact literal asserted by the unit tests. -/
def unsortedWarning : String := "loadable segments are unsorted by virtual address"

/-- Modelled from the spec: the Address Mapper (`toMappedAddr` of the
missing implementation).  It scans all loadable segments — so an unsorted
supply still yields the correct answer — and returns, in the second
component, the messages delivered to the per-call warning sink in order:
the single `unsortedWarning` text when the loadable segments are unsorted
by virtual address, nothing otherwise, and never more than one message
however many segments are out of order. -/
def toMappedAddr (phdrs : List Phdr) (bufLen vaddr : Nat) :
    Except Diagnostic Nat × List String :=
  (mapResult (loadSegments phdrs) bufLen vaddr,
   if sortedByVaddr (loadSegments phdrs) then [] else [unsortedWarning])

/-! ## File construction (Identification Reader + section header walk) -/

/-- The constructed ELF object-file view: the File Identity together with
the decoded section header table. -/
structure ELFFile where
  is64 : Bool
  isLE : Bool
  e_machine : Nat
  sections : List Shdr
deriving Repr, DecidableEq, Inhabited

/-- Decode one section header record at `pos`, using the record layout of
the declared word class and byte order. -/
def parseShdr (is64 isLE : Bool) (buf : List Nat) (pos : Nat) : Shdr :=
  if is64 then
    { sh_type := readN isLE buf (pos + 4) 4
      sh_addr := readN isLE buf (pos + 16) 8
      sh_offset := readN isLE buf (pos + 24) 8
      sh_size := readN isLE buf (pos + 32) 8 }
  else
    { sh_type := readN isLE buf (pos + 4) 4
      sh_addr := readN isLE buf (pos + 12) 4
      sh_offset := readN isLE buf (pos + 16) 4
      sh_size := readN isLE buf (pos + 20) 4 }

/-- Modelled from the spec: decode the section header table.  Each header
record itself is bounds-checked against the buffer before it is read, but
the contents a header points at are not validated here. -/
def readShdrs (is64 isLE : Bool) (buf : List Nat) (shoff entSize shnum : Nat) :
    Except Diagnostic (List Shdr) :=
  (List.range shnum).mapM fun i =>
    let pos := shoff + i * entSize
    if buf.length < pos + entSize then
      .error { msg := "section headers go past the end of the file: 0x" ++ hexStr pos
               offset := pos }
    else .ok (parseShdr is64 isLE buf pos)

/-- Modelled from the spec: file construction.  The Identification Reader
validates the magic sequence and the class and encoding bytes — a buffer
shorter than the identification block is its own diagnostic, distinct
from wrong magic — and then the section header table is decoded.  Only
the header records are bounds-checked at construction time; a section
whose declared size or offset is implausible does not fail construction,
only a later direct access to its content does. -/
def create (buf : List Nat) : Except Diagnostic ELFFile :=
  if buf.length < 16 then
    .error { msg := "buffer shorter than the minimum ELF identification block", offset := 0 }
  else if !(byteAt buf 0 == 0x7f && byteAt buf 1 == 0x45 &&
            byteAt buf 2 == 0x4c && byteAt buf 3 == 0x46) then
    .error { msg := "invalid ELF magic bytes", offset := 0 }
  else if byteAt buf 4 != 1 && byteAt buf 4 != 2 then
    .error { msg := "invalid ELF class byte", offset := 4 }
  else if byteAt buf 5 != 1 && byteAt buf 5 != 2 then
    .error { msg := "invalid ELF data encoding byte", offset := 5 }
  else
    let is64 := byteAt buf 4 == 2
    let isLE := byteAt buf 5 == 1
    let machine := readN isLE buf 18 2
    let shoff := if is64 then readN isLE buf 40 8 else readN isLE buf 32 4
    let entSize := if is64 then readN isLE buf 58 2 else readN isLE buf 46 2
    let shnum := if is64 then readN isLE buf 60 2 else readN isLE buf 48 2
    (readShdrs is64 isLE buf shoff entSize shnum).map fun secs =>
      { is64 := is64, isLE := isLE, e_machine := machine, sections := secs }

/-- Modelled from the spec: the centralized checked-span primitive — a
start/length pair is validated against the buffer length before any byte
of the span is dereferenced. -/
def checkedSpan (bufLen start len : Nat) : Except Diagnostic Nat :=
  if bufLen < start + len then
    .error { msg := "section data with offset 0x" ++ hexStr start
                    ++ " goes past the end of the file"
             offset := start }
  else .ok start

/-- Modelled from the spec: direct access to the content bytes declared by
a section header, through the checked-span primitive. -/
def sectionContents (buf : List Nat) (sec : Shdr) : Except Diagnostic (List Nat) :=
  (checkedSpan buf.length sec.sh_offset sec.sh_size).map fun s =>
    (buf.drop s).take sec.sh_size

/-! ## Substring helper for diagnostic-content statements -/

/-- Whether `pat` occurs at the head of `hay`. -/
def startsWithL : List Char → List Char → Bool
  | _, [] => true
  | [], _ :: _ => false
  | a :: as, b :: bs => a == b && startsWithL as bs

/-- Whether `pat` occurs anywhere inside `hay`. -/
def containsL (hay pat : List Char) : Bool :=
  match hay with
  | [] => startsWithL [] pat
  | _ :: t => startsWithL hay pat || containsL t pat

/-- Whether `pat` occurs as a substring of `s`. -/
def strContains (s pat : String) : Bool :=
  containsL s.data pat.data

/-! ## Concrete fixtures from the unit tests -/

/-- Little-endian byte image of `n` in `w` bytes. -/
def leBytes (w n : Nat) : List Nat :=
  (List.range w).map fun i => n / 256 ^ i % 256

/-- The ELF64 little-endian file of the symtab-shndx construction test: a
64-byte header declaring a 2-entry section header table at offset 64,
followed by the null section header, a `SHT_SYMTAB_SHNDX` section header
declaring offset 192 and the implausible size 0xFFFFFFFF, and 4 content
bytes. -/
def shndxBuf : List Nat :=
  [0x7f, 0x45, 0x4c, 0x46, 2, 1, 1, 0, 0, 0, 0, 0, 0, 0, 0, 0] ++
  leBytes 2 1 ++ leBytes 2 62 ++ leBytes 4 1 ++
  leBytes 8 0 ++ leBytes 8 0 ++ leBytes 8 64 ++
  leBytes 4 0 ++ leBytes 2 64 ++ leBytes 2 0 ++ leBytes 2 0 ++
  leBytes 2 64 ++ leBytes 2 2 ++ leBytes 2 0 ++
  List.replicate 64 0 ++
  (leBytes 4 0 ++ leBytes 4 18 ++ leBytes 8 0 ++ leBytes 8 0 ++
   leBytes 8 192 ++ leBytes 8 0xFFFFFFFF ++
   leBytes 4 0 ++ leBytes 4 0 ++ leBytes 8 0 ++ leBytes 8 0) ++
  [0, 0, 0, 0]

/-- The two loadable segments of the unsorted-load-segments test, supplied
in the unsorted order of the fixture: [0x2000, 0x3000) at file offset
0x4000 first, then [0x1000, 0x2000) at file offset 0x3000. -/
def unsortedSegs : List Phdr :=
  [{ p_type := 1, p_offset := 0x4000, p_vaddr := 0x2000, p_memsz := 0x1000 },
   { p_type := 1, p_offset := 0x3000, p_vaddr := 0x1000, p_memsz := 0x1000 }]

/-- The file contents of the unsorted-load-segments test, as a byte
function: 0x11 at file offset 0x3000 and 0x99 at file offset 0x4000. -/
def unsortedFileByte : Nat → Nat := fun i =>
  if i = 0x3000 then 0x11 else if i = 0x4000 then 0x99 else 0

/-- The byte buffer of the broken-symbol test: the symbol-table section
content begins right after the 64-byte ELF header and the file is far
shorter than the offset computed for the probe index 0xFFFFFFFF. -/
def symtabTestBuf : List Nat := List.replicate 0x158 0

/-- The symbol-table section of the broken-symbol test: section index 1,
content at file offset 0x40, holding the single null entry. -/
def symtabTestSec : Shdr := { sh_type := 2, sh_offset := 0x40, sh_size := 24 }

/-- A string-table section placed after the symbol table, for the name
query of the broken-symbol test. -/
def strTabTestSec : Shdr := { sh_type := 3, sh_offset := 0x58, sh_size := 1 }

/-! ## Helper lemmas -/

theorem readLE_zero (buf : List Nat) (off : Nat) :
    ∀ n : Nat, (∀ j, j < n → byteAt buf (off + j) = 0) → readLE buf off n = 0 := by
  intro n
  induction n with
  | zero => intro _; rfl
  | succ k ih =>
    intro h
    simp only [readLE]
    rw [ih fun j hj => h j (by omega), h k (by omega)]
    simp

theorem parseSym_zero (buf : List Nat) (pos : Nat)
    (h : ∀ j, j < 24 → byteAt buf (pos + j) = 0) : parseSym buf pos = nullSym := by
  have hname : readLE buf pos 4 = 0 := readLE_zero buf pos 4 fun j hj => h j (by omega)
  have hinfo : byteAt buf (pos + 4) = 0 := h 4 (by omega)
  have hother : byteAt buf (pos + 5) = 0 := h 5 (by omega)
  have hshndx : readLE buf (pos + 6) 2 = 0 := readLE_zero buf (pos + 6) 2 fun j hj => by
    rw [Nat.add_assoc]
    exact h (6 + j) (by omega)
  have hvalue : readLE buf (pos + 8) 8 = 0 := readLE_zero buf (pos + 8) 8 fun j hj => by
    rw [Nat.add_assoc]
    exact h (8 + j) (by omega)
  have hsize : readLE buf (pos + 16) 8 = 0 := readLE_zero buf (pos + 16) 8 fun j hj => by
    rw [Nat.add_assoc]
    exact h (16 + j) (by omega)
  simp [parseSym, nullSym, hname, hinfo, hother, hshndx, hvalue, hsize]

/-! ## Claim theorems -/

/-- C1: for every symbol-table section and entry index whose computed
byte range is not contained in the buffer, the raw-entry accessor and
each derived symbol query (name, section, flags, type, address) fail,
every one of them with the identical Diagnostic — same message and same
implicated offset — that the underlying entry accessor produces for that
section and index. -/
theorem symbol_queries_share_entry_diag (buf : List Nat) (secIdx : Nat) (sec strTab : Shdr)
    (idx : Nat) (h : buf.length < sec.sh_offset + idx * symEntrySize + symEntrySize) :
    getEntry buf.length secIdx sec symEntrySize idx =
      .error (entryDiag secIdx (sec.sh_offset + idx * symEntrySize)) ∧
    getSymbol buf secIdx sec idx =
      .error (entryDiag secIdx (sec.sh_offset + idx * symEntrySize)) ∧
    getSymbolName buf secIdx sec strTab idx =
      .error (entryDiag secIdx (sec.sh_offset + idx * symEntrySize)) ∧
    getSymbolSection buf secIdx sec idx =
      .error (entryDiag secIdx (sec.sh_offset + idx * symEntrySize)) ∧
    getSymbolFlags buf secIdx sec idx =
      .error (entryDiag secIdx (sec.sh_offset + idx * symEntrySize)) ∧
    getSymbolType buf secIdx sec idx =
      .error (entryDiag secIdx (sec.sh_offset + idx * symEntrySize)) ∧
    getSymbolAddress buf secIdx sec idx =
      .error (entryDiag secIdx (sec.sh_offset + idx * symEntrySize)) ∧
    (entryDiag secIdx (sec.sh_offset + idx * symEntrySize)).offset =
      sec.sh_offset + idx * symEntrySize := by
  have he : getEntry buf.length secIdx sec symEntrySize idx =
      .error (entryDiag secIdx (sec.sh_offset + idx * symEntrySize)) := by
    simp only [getEntry]
    rw [if_pos h]
  refine ⟨he, ?_, ?_, ?_, ?_, ?_, ?_, rfl⟩ <;>
    simp only [getSymbol, getSymbolName, getSymbolSection, getSymbolFlags, getSymbolType,
      getSymbolAddress, he] <;> rfl

/-- Witness for C1 at the unit-test input: the probe index 0xFFFFFFFF on
the test symbol table places the computed range past the end of the
0x158-byte file, and every accessor fails with the entry diagnostic for
computed offset 0x40 + 0xFFFFFFFF * 24. -/
theorem symbol_queries_share_entry_diag_witness :
    (symtabTestBuf.length <
      symtabTestSec.sh_offset + 0xFFFFFFFF * symEntrySize + symEntrySize) ∧
    (getEntry symtabTestBuf.length 1 symtabTestSec symEntrySize 0xFFFFFFFF =
      .error (entryDiag 1 (symtabTestSec.sh_offset + 0xFFFFFFFF * symEntrySize)) ∧
    getSymbol symtabTestBuf 1 symtabTestSec 0xFFFFFFFF =
      .error (entryDiag 1 (symtabTestSec.sh_offset + 0xFFFFFFFF * symEntrySize)) ∧
    getSymbolName symtabTestBuf 1 symtabTestSec strTabTestSec 0xFFFFFFFF =
      .error (entryDiag 1 (symtabTestSec.sh_offset + 0xFFFFFFFF * symEntrySize)) ∧
    getSymbolSection symtabTestBuf 1 symtabTestSec 0xFFFFFFFF =
      .error (entryDiag 1 (symtabTestSec.sh_offset + 0xFFFFFFFF * symEntrySize)) ∧
    getSymbolFlags symtabTestBuf 1 symtabTestSec 0xFFFFFFFF =
      .error (entryDiag 1 (symtabTestSec.sh_offset + 0xFFFFFFFF * symEntrySize)) ∧
    getSymbolType symtabTestBuf 1 symtabTestSec 0xFFFFFFFF =
      .error (entryDiag 1 (symtabTestSec.sh_offset + 0xFFFFFFFF * symEntrySize)) ∧
    getSymbolAddress symtabTestBuf 1 symtabTestSec 0xFFFFFFFF =
      .error (entryDiag 1 (symtabTestSec.sh_offset + 0xFFFFFFFF * symEntrySize)) ∧
    (entryDiag 1 (symtabTestSec.sh_offset + 0xFFFFFFFF * symEntrySize)).offset =
      symtabTestSec.sh_offset + 0xFFFFFFFF * symEntrySize) :=
  ⟨by decide,
   symbol_queries_share_entry_diag symtabTestBuf 1 symtabTestSec strTabTestSec 0xFFFFFFFF
     (by decide)⟩

/-- The diagnostic of the broken-symbol test carries the exact message
literal asserted by the unit test. -/
theorem entryDiag_matches_test_message :
    entryDiag 1 (symtabTestSec.sh_offset + 0xFFFFFFFF * symEntrySize) =
      { msg := "unable to access section [index 1] data at 0x1800000028: offset goes past the end of file"
        offset := 0x1800000028 } := by decide

/-- C2: with the two loadable segments of the fixture supplied unsorted —
[0x2000, 0x3000) at file offset 0x4000 before [0x1000, 0x2000) at file
offset 0x3000 — mapping 0x1000 yields file offset 0x3000 (the byte 0x11)
and mapping 0x2000 yields file offset 0x4000 (the byte 0x99), each call
emitting exactly one warning reading "loadable segments are unsorted by
virtual address"; and no call of the mapper ever emits more than one
warning, nor any warning with a different text. -/
theorem toMappedAddr_unsorted_segments :
    toMappedAddr unsortedSegs 0x5000 0x1000 = (.ok 0x3000, [unsortedWarning]) ∧
    unsortedFileByte 0x3000 = 0x11 ∧
    toMappedAddr unsortedSegs 0x5000 0x2000 = (.ok 0x4000, [unsortedWarning]) ∧
    unsortedFileByte 0x4000 = 0x99 ∧
    unsortedWarning = "loadable segments are unsorted by virtual address" ∧
    ∀ (phdrs : List Phdr) (bufLen vaddr : Nat),
      (toMappedAddr phdrs bufLen vaddr).2.length ≤ 1 ∧
      ∀ w ∈ (toMappedAddr phdrs bufLen vaddr).2, w = unsortedWarning := by
  refine ⟨by decide, by decide, by decide, by decide, by decide, ?_⟩
  intro phdrs bufLen vaddr
  simp only [toMappedAddr]
  split <;> simp

/-- C3 counterexample: classifying IAMCU at the invalid 64-bit word class
yields the word-size-correct unknown format name, but the architecture
identifier is x86, not the generic unknown identifier the claim
states. -/
theorem invalid_class_arch_not_unknown_cex :
    (classify EM_IAMCU true true).1 = "elf64-unknown" ∧
    (classify EM_IAMCU true true).2 = Arch.x86 ∧
    Arch.x86 ≠ Arch.unknown := by decide

/-- C3 (amended): for machine types valid at only one word class (IAMCU,
PPC, ARM at 32-bit only; S390, SPARCV9 at 64-bit only), classifying the
invalid word class degrades the format name to the word-size-correct
unknown format, while the architecture identifier remains the machine
type's own identifier. -/
theorem invalid_class_format_unknown_arch_kept : ∀ isLE : Bool,
    classify EM_IAMCU true isLE = ("elf64-unknown", Arch.x86) ∧
    classify EM_PPC true isLE = ("elf64-unknown", Arch.ppc) ∧
    classify EM_ARM true isLE = ("elf64-unknown", Arch.arm) ∧
    classify EM_S390 false isLE = ("elf32-unknown", Arch.systemz) ∧
    classify EM_SPARCV9 false isLE = ("elf32-unknown", Arch.sparcv9) := by
  intro b
  cases b <;> decide

/-- C4 counterexample: classifying VE at the 32-bit word class yields
format name elf32-unknown, but the architecture identifier is ve, not the
generic unknown identifier the claim states. -/
theorem ve_elf32_arch_not_unknown_cex :
    (classify EM_VE false true).1 = "elf32-unknown" ∧
    (classify EM_VE false true).2 = Arch.ve ∧
    Arch.ve ≠ Arch.unknown := by decide

/-- C4 (amended): classifying the VE machine code yields format name
elf64-ve at the 64-bit word class and elf32-unknown at the 32-bit word
class, while the architecture identifier is ve at both classes and byte
orders. -/
theorem ve_classification : ∀ isLE : Bool,
    classify EM_VE true isLE = ("elf64-ve", Arch.ve) ∧
    classify EM_VE false isLE = ("elf32-unknown", Arch.ve) := by
  intro b
  cases b <;> decide

/-- C5 counterexample: at the unit-test input the entry accessor fails
with the pinned diagnostic, whose message names the accessed section
index and the computed offset but nowhere contains the buffer size — the
0x158-byte length appears neither as decimal 344 nor as hexadecimal 158 —
refuting the claim that the diagnostic identifies the buffer size. -/
theorem entry_diag_lacks_buffer_size_cex :
    getEntry symtabTestBuf.length 1 symtabTestSec symEntrySize 0xFFFFFFFF =
      .error (entryDiag 1 0x1800000028) ∧
    strContains (entryDiag 1 0x1800000028).msg "[index 1]" = true ∧
    strContains (entryDiag 1 0x1800000028).msg "1800000028" = true ∧
    strContains (entryDiag 1 0x1800000028).msg "344" = false ∧
    strContains (entryDiag 1 0x1800000028).msg "158" = false := by decide

/-- C5 (amended): for every table access whose computed span exceeds the
buffer length, the entry accessor fails before any read with the
Diagnostic whose message names the accessed section index and the
computed entry offset and states that the offset goes past the end of the
file, and whose implicated offset is that computed offset; the numeric
buffer size is not part of the diagnostic. -/
theorem getEntry_diag_names_index_and_offset (bufLen secIdx : Nat) (sec : Shdr)
    (entSize idx : Nat) (h : bufLen < sec.sh_offset + idx * entSize + entSize) :
    getEntry bufLen secIdx sec entSize idx =
      .error { msg := "unable to access section [index " ++ toString secIdx ++ "] data at 0x"
                      ++ hexStr (sec.sh_offset + idx * entSize)
                      ++ ": offset goes past the end of file"
               offset := sec.sh_offset + idx * entSize } := by
  simp only [getEntry, entryDiag]
  rw [if_pos h]

/-- Witness for the amended C5 at the unit-test input. -/
theorem getEntry_diag_names_index_and_offset_witness :
    (symtabTestBuf.length <
      symtabTestSec.sh_offset + 0xFFFFFFFF * symEntrySize + symEntrySize) ∧
    getEntry symtabTestBuf.length 1 symtabTestSec symEntrySize 0xFFFFFFFF =
      .error { msg := "unable to access section [index " ++ toString 1 ++ "] data at 0x"
                      ++ hexStr (symtabTestSec.sh_offset + 0xFFFFFFFF * symEntrySize)
                      ++ ": offset goes past the end of file"
               offset := symtabTestSec.sh_offset + 0xFFFFFFFF * symEntrySize } :=
  ⟨by decide,
   getEntry_diag_names_index_and_offset symtabTestBuf.length 1 symtabTestSec symEntrySize
     0xFFFFFFFF (by decide)⟩

/-- C6: for every symbol-table section that validly holds its reserved
first entry inside the buffer — the entry bytes being zero as the format
reserves — fetching the entry at index 0 succeeds and returns the
null/undefined symbol; index 0 is never reported as an error. -/
theorem getSymbol_index_zero_null (buf : List Nat) (secIdx : Nat) (sec : Shdr)
    (hfit : sec.sh_offset + symEntrySize ≤ buf.length)
    (hzero : ∀ j, j < symEntrySize → byteAt buf (sec.sh_offset + j) = 0) :
    getSymbol buf secIdx sec 0 = .ok nullSym := by
  have hfit24 : sec.sh_offset + 24 ≤ buf.length := hfit
  have hz : parseSym buf sec.sh_offset = nullSym :=
    parseSym_zero buf sec.sh_offset hzero
  simp only [getSymbol, getEntry, symEntrySize]
  rw [if_neg (by omega)]
  simp [Except.map, hz]

/-- Witness for C6 at the unit-test input: index 0 on the fixture symbol
table resolves to the null symbol. -/
theorem getSymbol_index_zero_null_witness :
    (symtabTestSec.sh_offset + symEntrySize ≤ symtabTestBuf.length ∧
     ∀ j, j < symEntrySize → byteAt symtabTestBuf (symtabTestSec.sh_offset + j) = 0) ∧
    getSymbol symtabTestBuf 1 symtabTestSec 0 = .ok nullSym :=
  ⟨⟨by decide, by decide⟩,
   getSymbol_index_zero_null symtabTestBuf 1 symtabTestSec (by decide) (by decide)⟩

/-- C7: SPARC and SPARC32PLUS resolve through identical tables — for
every word class and byte order both machine codes classify to the same
(format name, architecture identifier) pair — with 32-bit little-endian
giving sparcel and 32-bit big-endian giving sparc under format
elf32-sparc, and the 64-bit word class giving format elf64-unknown. -/
theorem sparc_sparc32plus_same_table :
    (∀ is64 isLE : Bool, classify EM_SPARC is64 isLE = classify EM_SPARC32PLUS is64 isLE) ∧
    classify EM_SPARC false true = ("elf32-sparc", Arch.sparcel) ∧
    classify EM_SPARC false false = ("elf32-sparc", Arch.sparc) ∧
    (∀ isLE : Bool, (classify EM_SPARC true isLE).1 = "elf64-unknown") := by
  refine ⟨?_, by decide, by decide, ?_⟩
  · intro a b
    cases a <;> cases b <;> decide
  · intro b
    cases b <;> decide

/-- C8: constructing the object-file view over the fixture buffer whose
SHT_SYMTAB_SHNDX section declares the implausible size 0xFFFFFFFF
succeeds, the decoded section carries that type and size, and only the
later direct access to the section content fails. -/
theorem create_tolerates_huge_shndx_size :
    (create shndxBuf).isOk = true ∧
    ((create shndxBuf).map fun f =>
        ((f.sections.getD 1 default).sh_type, (f.sections.getD 1 default).sh_size)) =
      .ok (SHT_SYMTAB_SHNDX, 0xFFFFFFFF) ∧
    ((create shndxBuf).map fun f =>
        (sectionContents shndxBuf (f.sections.getD 1 default)).isOk) = .ok false := by
  refine ⟨by decide, by decide, by decide⟩

/-- C9: the relative-relocation table maps the CSKY machine code to the
C-SKY RELATIVE relocation code R_CKCORE_RELATIVE. -/
theorem relative_relocation_csky :
    getELFRelativeRelocationType EM_CSKY = R_CKCORE_RELATIVE := by decide

/-- C10: for the ARM, IAMCU, VE and BPF machine codes and each byte
order, the architecture identifier is the same at the 32-bit and the
64-bit word class, even though the format name for the invalid word class
degrades to the word-size-correct unknown format. -/
theorem arch_independent_of_class : ∀ isLE : Bool,
    (classify EM_ARM false isLE).2 = (classify EM_ARM true isLE).2 ∧
    (classify EM_IAMCU false isLE).2 = (classify EM_IAMCU true isLE).2 ∧
    (classify EM_VE false isLE).2 = (classify EM_VE true isLE).2 ∧
    (classify EM_BPF false isLE).2 = (classify EM_BPF true isLE).2 ∧
    (classify EM_ARM true isLE).1 = "elf64-unknown" ∧
    (classify EM_BPF false isLE).1 = "elf32-unknown" := by
  intro b
  cases b <;> decide

end ELFModel
